import Mathlib

/-!
Verification development for the employee-payment chat bot
(`handlers.py`, `user_manager.py`, `google_sheets_helper.py`, `config.py`).

Modelling conventions, fixed once here:

* Numbers. Python parses amounts with `float(text)`, computes with
  IEEE-754 binary64 doubles, and prints them with `str(...)`. The model
  is faithful to that: `Fp` is a finite double as a canonical dyadic
  rational (IEEE mantissa and exponent), `pyFloat` is the correctly
  rounded parse of a plain decimal literal (optional sign, digits,
  optional fractional part — exponent forms, `inf`, `nan`, whitespace
  and underscores are outside the model), `Fp.sub` is IEEE subtraction
  (exact dyadic difference, rounded to nearest with ties to even), the
  comparisons are the exact value comparisons IEEE prescribes for
  finite doubles, and `pyStrFp` is the CPython repr: the shortest
  decimal string that rounds back to the same double, rendered
  positionally with at least one fractional digit. So the model
  reproduces the inexactness of the source, e.g. subtracting the double
  of "0.1" from the double of "0.3" and printing yields
  "0.19999999999999998", not "0.2". Restrictions, none reached by any
  evaluated input: gradual underflow, overflow to infinity, and the
  exponential display Python uses outside `[1e-4, 1e16)`.
* Sheets. The two spreadsheets are lists of rows of cells
  (`SheetsState`); the header rows are kept implicitly (the
  `ensure_headers` self-healing always yields a correct header and is a
  no-op in the model), so index 0 of the list is spreadsheet row 2, and
  the row index returned by `find_user_by_username` is 0-based where the
  source uses `enumerate(..., start=2)`. Writing Python `None` into a
  cell stores an empty cell at the sheet level, so an absent value is
  modelled as the empty string when it is placed in a row (`pyCell`).
* Exceptions. Remote (network/auth) failures are outside the model: the
  modelled sheet calls always take effect. A Python exception that the
  source itself can raise on the modelled data (an uncaught `ValueError`
  from `float`, or `AttributeError` from `.get` on `None`) is modelled
  by an `Option` result, `none` meaning the handler dies.
* Sessions. The handlers in `handlers.py` run after the router has made
  sure `user_id` has a session, so they are embedded as functions on the
  one session they touch. The `UserManager` methods themselves, whose
  contract on an unknown id is under test, are embedded separately over
  an association-list store mirroring the `active_users` dict; there the
  unguarded dict accesses of `login_user`/`register_user` are modelled
  with `Except`, `Except.error "KeyError"` being the uncaught Python
  `KeyError`.
-/

/-- A decimal literal, as parsed from text: the exact value is
`num / 10 ^ exp`. This is only the syntactic reading of the digits; the
value Python works with is the correctly rounded binary64 `fpOfDec` of
it. -/
structure Dec where
  num : Int
  exp : Nat
deriving DecidableEq, Repr

/-- Ten to the power `n` (kept structural so the kernel reduces it). -/
def pow10N : Nat → Nat
  | 0 => 1
  | n + 1 => 10 * pow10N n

/-- Two to the power `n`. -/
def pow2N : Nat → Nat
  | 0 => 1
  | n + 1 => 2 * pow2N n

/-- Numeric value of a digit list, most significant first. -/
def digitsVal (ds : List Char) : Nat :=
  ds.foldl (fun n c => n * 10 + (c.toNat - 48)) 0

/-- The decimal literals Python `float(text)` accepts, read exactly:
optional sign, integer digits, optional dot and fractional digits.
Returns `none` where Python raises `ValueError` (and on the
exponent/`inf`/`nan` forms that are outside the model). -/
def parseDecLit (s : String) : Option Dec :=
  let cs := s.data
  let sgn : Int := match cs with
    | '-' :: _ => -1
    | _ => 1
  let cs2 := match cs with
    | '-' :: t => t
    | '+' :: t => t
    | _ => cs
  let ip := cs2.takeWhile Char.isDigit
  let rest := cs2.dropWhile Char.isDigit
  match rest with
  | [] =>
    if ip.isEmpty then none
    else some ⟨sgn * (digitsVal ip : Int), 0⟩
  | '.' :: fp =>
    if fp.all Char.isDigit ∧ ¬(ip.isEmpty ∧ fp.isEmpty) then
      some ⟨sgn * ((digitsVal ip * pow10N fp.length + digitsVal fp : Nat) : Int), fp.length⟩
    else none
  | _ => none

/-- A finite IEEE-754 binary64 value, as the dyadic rational
`num * 2 ^ exp`. The rounding function below always produces the
canonical form: `num = 0` (with `exp = 0`) for zero, otherwise
`2 ^ 52 ≤ abs num < 2 ^ 53` with `exp` the exponent of the unit in the
last place — exactly the sign/mantissa/exponent of the IEEE encoding.
So structural equality on rounding results is IEEE value equality. -/
structure Fp where
  num : Int
  exp : Int
deriving DecidableEq, Repr

def Fp.zero : Fp := ⟨0, 0⟩

/-- `2 ^ 52`, the smallest canonical mantissa. -/
def fpLo : Nat := 4503599627370496

/-- `2 ^ 53`, one past the largest canonical mantissa. -/
def fpHi : Nat := 9007199254740992

/-- Core of binary64 rounding: the value is `(p / q) * 2 ^ e` with
`p, q > 0`; scale until `p / q` lies in `[2 ^ 52, 2 ^ 53)`, then round
to nearest, ties to even. The fuel bounds the scaling loop and covers
the whole normal range of binary64; gradual underflow below it and
overflow to infinity above it are outside the model (no such value
appears in any evaluated input). -/
def fpNormAux : Nat → Nat → Nat → Int → Fp
  | 0, _, _, _ => ⟨0, 0⟩
  | fuel + 1, p, q, e =>
    if p < q * fpLo then fpNormAux fuel (2 * p) q (e - 1)
    else if q * fpHi ≤ p then fpNormAux fuel p (2 * q) (e + 1)
    else
      let m0 := p / q
      let r := p % q
      let m := if 2 * r < q then m0
               else if q < 2 * r then m0 + 1
               else if m0 % 2 = 0 then m0 else m0 + 1
      if m = fpHi then ⟨(fpLo : Int), e + 1⟩ else ⟨(m : Int), e⟩

/-- Round the positive rational `n / d` to the nearest binary64. -/
def fpOfRatPos (n d : Nat) : Fp := fpNormAux 4400 n d 0

/-- Round the rational `n / d` to the nearest binary64 (rounding is
symmetric in the sign). -/
def fpOfRat (n : Int) (d : Nat) : Fp :=
  if n = 0 then ⟨0, 0⟩
  else if 0 < n then fpOfRatPos n.natAbs d
  else
    let r := fpOfRatPos n.natAbs d
    ⟨-r.num, r.exp⟩

/-- The correctly rounded binary64 of a decimal literal — what CPython
`float(text)` computes (its strtod is correctly rounded). -/
def fpOfDec (v : Dec) : Fp := fpOfRat v.num (pow10N v.exp)

/-- Model of Python `float(text)`: read the decimal literal and round it
to the nearest binary64. -/
def pyFloat (s : String) : Option Fp := (parseDecLit s).map fpOfDec

/-- IEEE-754 binary64 subtraction: the exact dyadic difference, rounded
to nearest (ties to even) — IEEE requires exactly this correctly rounded
result. -/
def Fp.sub (a b : Fp) : Fp :=
  let m := min a.exp b.exp
  let da := a.num * (pow2N (a.exp - m).toNat : Int)
  let db := b.num * (pow2N (b.exp - m).toNat : Int)
  let diff := da - db
  if 0 ≤ m then fpOfRat (diff * (pow2N m.toNat : Int)) 1
  else fpOfRat diff (pow2N (-m).toNat)

/-- IEEE comparison `a <= b` on finite doubles is exact value
comparison: compare the numerators at a common exponent. -/
def Fp.le (a b : Fp) : Prop :=
  a.num * (pow2N (a.exp - min a.exp b.exp).toNat : Int)
    ≤ b.num * (pow2N (b.exp - min a.exp b.exp).toNat : Int)

/-- IEEE comparison `a < b` on finite doubles. -/
def Fp.lt (a b : Fp) : Prop :=
  a.num * (pow2N (a.exp - min a.exp b.exp).toNat : Int)
    < b.num * (pow2N (b.exp - min a.exp b.exp).toNat : Int)

instance (a b : Fp) : Decidable (Fp.le a b) :=
  inferInstanceAs (Decidable (_ ≤ _))

instance (a b : Fp) : Decidable (Fp.lt a b) :=
  inferInstanceAs (Decidable (_ < _))

/-- Decimal digits of a natural number, most significant first; the fuel
argument makes the recursion structural (`fuel = n + 1` is enough). -/
def natToDigitsAux : Nat → Nat → List Char → List Char
  | 0, _, acc => acc
  | fuel + 1, n, acc =>
    if n < 10 then Char.ofNat (48 + n) :: acc
    else natToDigitsAux fuel (n / 10) (Char.ofNat (48 + n % 10) :: acc)

def natDigits (n : Nat) : List Char := natToDigitsAux (n + 1) n []

/-- Is `mn / md < 10 ^ t`? -/
def ratLt10pow (mn md : Nat) (t : Int) : Bool :=
  if 0 ≤ t then mn < md * pow10N t.toNat else mn * pow10N (-t).toNat < md

/-- Find the decimal exponent `t` of the positive rational `mn / md`:
the unique integer with `10 ^ (t - 1) ≤ mn / md < 10 ^ t`. -/
def decExpSearch : Nat → Nat → Nat → Int → Int
  | 0, _, _, t => t
  | fuel + 1, mn, md, t =>
    if ratLt10pow mn md t then
      if ratLt10pow mn md (t - 1) then decExpSearch fuel mn md (t - 1) else t
    else decExpSearch fuel mn md (t + 1)

def decExp (mn md : Nat) : Int := decExpSearch 700 mn md 0

/-- Round `n / d` to an integer, ties to even. -/
def roundNatHalfEven (n d : Nat) : Nat :=
  let m0 := n / d
  let r := n % d
  if 2 * r < d then m0
  else if d < 2 * r then m0 + 1
  else if m0 % 2 = 0 then m0 else m0 + 1

/-- The correctly rounded `k` significant decimal digits of the positive
rational `mn / md` whose decimal exponent is `t`: round
`(mn / md) * 10 ^ (k - t)` to an integer. -/
def sigDigits (mn md : Nat) (t : Int) (k : Nat) : Nat :=
  let s : Int := (k : Int) - t
  if 0 ≤ s then roundNatHalfEven (mn * pow10N s.toNat) md
  else roundNatHalfEven mn (md * pow10N (-s).toNat)

/-- The binary64 nearest to the decimal `D * 10 ^ (t - k)` where `k` is
the digit count of `D` — parsing a digit candidate back, to test
round-tripping. -/
def fpOfDigits (D : Nat) (t : Int) : Fp :=
  let k := (natDigits D).length
  let s : Int := t - (k : Int)
  if 0 ≤ s then fpOfRatPos (D * pow10N s.toNat) 1
  else fpOfRatPos D (pow10N (-s).toNat)

/-- Positional rendering of the digits `D` with decimal exponent `t`
(value `0.D * 10 ^ t`), as Python prints floats in the positional range:
an integer value gets a trailing ".0", a small value a leading "0.". -/
def renderDec (D : Nat) (t : Int) : String :=
  let ds := natDigits D
  let k : Int := (ds.length : Int)
  if k ≤ t then
    String.mk ds ++ String.mk (List.replicate (t - k).toNat '0') ++ ".0"
  else if 0 < t then
    String.mk (ds.take t.toNat) ++ "." ++ String.mk (ds.drop t.toNat)
  else
    "0." ++ String.mk (List.replicate (-t).toNat '0') ++ String.mk ds

/-- Try digit counts `k, k + 1, ...` (fuel runs to 17, which always
round-trips): the candidate is the correctly rounded `k`-digit decimal;
the first one that parses back to `x` is the shortest repr. -/
def pyStrFpGo (mn md : Nat) (t : Int) (x : Fp) : Nat → Nat → String
  | _, 0 => ""
  | k, fuel + 1 =>
    let D0 := sigDigits mn md t k
    let D := if D0 = pow10N k then pow10N (k - 1) else D0
    let t2 := if D0 = pow10N k then t + 1 else t
    if fuel = 0 then renderDec D t2
    else if fpOfDigits D t2 = x then renderDec D t2
    else pyStrFpGo mn md t x (k + 1) fuel

def pyStrFpPos (x : Fp) : String :=
  let mn := if 0 ≤ x.exp then x.num.natAbs * pow2N x.exp.toNat else x.num.natAbs
  let md := if 0 ≤ x.exp then 1 else pow2N (-x.exp).toNat
  pyStrFpGo mn md (decExp mn md) x 1 17

/-- Model of CPython `str(x)`/`repr(x)` for a finite double: the
shortest decimal string that rounds back to exactly `x`, rendered
positionally (with at least one fractional digit). Python switches to
exponential display outside `[1e-4, 1e16)`; that display form is outside
the model and no evaluated input reaches it. -/
def pyStrFp (x : Fp) : String :=
  if x.num = 0 then "0.0"
  else if x.num < 0 then "-" ++ pyStrFpPos ⟨-x.num, x.exp⟩
  else pyStrFpPos x

/-- Python string lowering (`text.lower()`), written over the character
list so the kernel can evaluate it. -/
def pyLower (s : String) : String := String.mk (s.data.map Char.toLower)

/-- Python truthiness test for an optional string: `None` and `""` are
falsy. -/
def pyFalsy : Option String → Bool
  | none => true
  | some s => decide (s = "")

/-- A Python value that is `None` or a string, placed into a sheet cell:
`None` is stored as an empty cell. -/
def pyCell : Option String → String
  | none => ""
  | some s => s

/-- A Python value that is `None` or a string, interpolated into a
message (a Python f-string prints the word None for it). -/
def pyShow : Option String → String
  | none => "None"
  | some s => s

/-- Python `str.title()`: an alphabetic character is uppercased when the
previous character is not alphabetic and lowercased otherwise. -/
def pyTitleAux : List Char → Bool → List Char
  | [], _ => []
  | c :: t, prevAlpha =>
    (if c.isAlpha then (if prevAlpha then c.toLower else c.toUpper) else c)
      :: pyTitleAux t c.isAlpha

def pyTitle (s : String) : String := String.mk (pyTitleAux s.data false)

/-- Python `field.replace("_", " ")`. -/
def replaceUnderscores (s : String) : String :=
  String.mk (s.data.map (fun c => if c = '_' then ' ' else c))

/-- Write cell `i` of a row, padding with empty cells if the row is
shorter (a range write to a sheet cell materialises the cells before
it). -/
def setCell : List String → Nat → String → List String
  | [], 0, v => [v]
  | [], n + 1, v => "" :: setCell [] n v
  | _ :: t, 0, v => v :: t
  | c :: t, n + 1, v => c :: setCell t n v

/-- Cell `i` of a row as the source reads it with a length guard:
`row[i] if len(row) > i else None`. -/
def cellOpt (row : List String) (i : Nat) : Option String :=
  if i < row.length then some (row.getD i "") else none

/-- The two spreadsheets (rows below the header row). -/
structure SheetsState where
  users : List (List String)
  payments : List (List String)
deriving DecidableEq, Repr

/-- The payment-information dict built by `get_user_payment_info`; each
entry is `None` when the row is too short. -/
structure PaymentInfo where
  preferred_mode : Option String
  upi_id : Option String
  bank_account : Option String
  ifsc_code : Option String
deriving DecidableEq, Repr

namespace GoogleSheetsHelper

/-- Scan for the first row whose cell 0 equals `u` (`if user and
user[0] == username`), returning it with its 0-based index (the source
numbers sheet rows from 2). -/
def find_user_aux (u : String) : List (List String) → Nat → Option (List String × Nat)
  | [], _ => none
  | r :: t, i =>
    if r ≠ [] ∧ r.headD "" = u then some (r, i) else find_user_aux u t (i + 1)

/-- `find_user_by_username`: comparing against a Python `None` username
never matches a cell, so an absent username finds nothing. -/
def find_user_by_username (users : List (List String)) (username : Option String) :
    Option (List String × Nat) :=
  match username with
  | none => none
  | some u => find_user_aux u users 0

/-- `register_user` of the sheets helper: reject when the username (cell
0 of the new row) already exists, otherwise append the row. The rows
this program passes in are never empty, so `headD` is the `user_data[0]`
of the source. -/
def register_user (sheets : SheetsState) (user_data : List String) :
    SheetsState × Bool × String :=
  match find_user_by_username sheets.users (some (user_data.headD "")) with
  | some _ => (sheets, false, "Username already exists")
  | none =>
    ({ sheets with users := sheets.users ++ [user_data] }, true,
      "User registered successfully")

/-- `get_user_balance`: cell 7 when the row has at least 8 cells, else
the default "0". -/
def get_user_balance (sheets : SheetsState) (username : Option String) : String :=
  match find_user_by_username sheets.users username with
  | some (row, _) => if 8 ≤ row.length then row.getD 7 "" else "0"
  | none => "0"

/-- `update_user_balance`: find the row and overwrite cell 7 (column H)
with `str(new_balance)`. -/
def update_user_balance (sheets : SheetsState) (username : Option String)
    (new_balance : Fp) : SheetsState × Bool × String :=
  match find_user_by_username sheets.users username with
  | none => (sheets, false, "User not found")
  | some (row, i) =>
    ({ sheets with users := sheets.users.set i (setCell row 7 (pyStrFp new_balance)) },
      true, "Balance updated successfully")

/-- `get_user_payment_info`: `None` when the user is missing, otherwise
the four payment cells with length guards. -/
def get_user_payment_info (users : List (List String)) (username : Option String) :
    Option PaymentInfo :=
  match find_user_by_username users username with
  | none => none
  | some (row, _) => some ⟨cellOpt row 3, cellOpt row 4, cellOpt row 5, cellOpt row 6⟩

/-- The `field_map` of `update_user_profile` (note it expects the key
`preferred_payment_mode`, not `payment_mode`). -/
def profile_field_map (f : String) : Option Nat :=
  if f = "first_name" then some 1
  else if f = "last_name" then some 2
  else if f = "preferred_payment_mode" then some 3
  else if f = "upi_id" then some 4
  else if f = "bank_account" then some 5
  else if f = "ifsc_code" then some 6
  else none

/-- `update_user_profile`: resolve the row, reject an unknown field key,
otherwise overwrite the mapped column of that row. -/
def update_user_profile (sheets : SheetsState) (username : Option String)
    (field value : String) : SheetsState × Bool × String :=
  match find_user_by_username sheets.users username with
  | none => (sheets, false, "User not found")
  | some (row, i) =>
    match profile_field_map field with
    | none => (sheets, false, "Invalid field: " ++ field)
    | some col =>
      ({ sheets with users := sheets.users.set i (setCell row col value) },
        true, pyTitle (replaceUnderscores field) ++ " updated successfully")

/-- `add_payment_request`: append the row extended with the timestamp
and the fixed status "Pending". -/
def add_payment_request (sheets : SheetsState) (payment_data : List String)
    (now : String) : SheetsState × Bool × String :=
  ({ sheets with payments := sheets.payments ++ [payment_data ++ [now, "Pending"]] },
    true, "Payment request added successfully")

end GoogleSheetsHelper

/-- The `registration_data` scratch dict (fixed keys; an unset key reads
as its `data.get(k, "")` default). -/
structure RegData where
  username : Option String
  first_name : Option String
  last_name : Option String
  payment_mode : Option String
  upi_id : Option String
  bank_account : Option String
  ifsc_code : Option String
deriving DecidableEq, Repr

def emptyRegData : RegData := ⟨none, none, none, none, none, none, none⟩

/-- The `withdraw_data` scratch dict. -/
structure WithdrawData where
  amount : Option Fp
  payment_mode : Option String
  upi_id : Option String
  bank_account : Option String
  ifsc_code : Option String
deriving DecidableEq, Repr

def emptyWithdrawData : WithdrawData := ⟨none, none, none, none, none⟩

/-- One entry of `active_users`. -/
structure Session where
  username : Option String
  logged_in : Bool
  registration_state : Option String
  registration_data : RegData
  withdraw_state : Option String
  withdraw_data : WithdrawData
  update_profile_state : Option String
  update_field : Option String
deriving DecidableEq, Repr

/-- The fresh session `start_session` installs. -/
def default_session : Session :=
  ⟨none, false, none, emptyRegData, none, emptyWithdrawData, none, none⟩

/-- `get_username`: the username only while logged in. -/
def get_username (sess : Session) : Option String :=
  if sess.logged_in then sess.username else none

namespace UserManager

/-- The user row assembled by `UserManager.register_user` from the
accumulated registration scratch data (lines 80-96 of
`user_manager.py`). -/
def build_user_row (d : RegData) : List String :=
  let payment_mode := d.payment_mode.getD ""
  let base := [d.username.getD "", d.first_name.getD "", d.last_name.getD "", payment_mode]
  let base := base ++
    (if payment_mode = "UPI" then [d.upi_id.getD "", "", ""]
     else if payment_mode = "Bank Account" then ["", d.bank_account.getD "", d.ifsc_code.getD ""]
     else ["", "", ""])
  base ++ ["0"]

/-- `UserManager.register_user` on the current session: build the row,
hand it to the sheets helper, and on success auto-login the session as
the entered username. -/
def register_user (sheets : SheetsState) (sess : Session) :
    SheetsState × Session × Bool × String :=
  let row := build_user_row sess.registration_data
  match GoogleSheetsHelper.register_user sheets row with
  | (sheets2, ok, msg) =>
    if ok then
      (sheets2,
        { sess with username := some (sess.registration_data.username.getD ""),
                    logged_in := true },
        true, msg)
    else (sheets2, sess, false, msg)

/-- `UserManager.login_user` on the current session (the router has
already made sure the session exists, so the dict write cannot fail
here). -/
def login_user (sheets : SheetsState) (sess : Session) (username : String) :
    Session × Bool :=
  match GoogleSheetsHelper.find_user_by_username sheets.users (some username) with
  | some _ => ({ sess with username := some username, logged_in := true }, true)
  | none => (sess, false)

end UserManager

/-! ## Handlers (`handlers.py`)

Each handler consumes the sheets state, the current session of the
messaging user, and the message text, and produces the new sheets
state, the new session and the list of reply texts sent, in order.
`now` is the `datetime.now()` timestamp string taken by the payment
append. -/

/-- The `field_mapping` of `handle_profile_update` (menu label to field
key; note the label "Payment Mode" maps to the key `payment_mode`). -/
def field_mapping (t : String) : Option String :=
  if t = "First Name" then some "first_name"
  else if t = "Last Name" then some "last_name"
  else if t = "Payment Mode" then some "payment_mode"
  else if t = "UPI ID" then some "upi_id"
  else if t = "Bank Account" then some "bank_account"
  else if t = "IFSC Code" then some "ifsc_code"
  else none

/-- `handle_registration`: the registration state machine. `state` is
the registration state the router read from the session. -/
def handle_registration (sheets : SheetsState) (sess : Session) (state text : String) :
    SheetsState × Session × List String :=
  if state = "awaiting_username" then
    match GoogleSheetsHelper.find_user_by_username sheets.users (some text) with
    | some _ =>
      (sheets, sess, ["This username already exists. Please choose another username:"])
    | none =>
      (sheets,
        { sess with registration_data := { sess.registration_data with username := some text },
                    registration_state := some "awaiting_first_name" },
        ["Please enter your first name:"])
  else if state = "awaiting_first_name" then
    (sheets,
      { sess with registration_data := { sess.registration_data with first_name := some text },
                  registration_state := some "awaiting_last_name" },
      ["Please enter your last name:"])
  else if state = "awaiting_last_name" then
    (sheets,
      { sess with registration_data := { sess.registration_data with last_name := some text },
                  registration_state := some "awaiting_payment_mode" },
      ["Please select your preferred payment mode:"])
  else if state = "awaiting_payment_mode" then
    if text ≠ "UPI" ∧ text ≠ "Bank Account" then
      (sheets, sess, ["Please select a valid payment mode:"])
    else
      let sess1 := { sess with
        registration_data := { sess.registration_data with payment_mode := some text } }
      if text = "UPI" then
        (sheets, { sess1 with registration_state := some "awaiting_upi_id" },
          ["Please enter your UPI ID:"])
      else
        (sheets, { sess1 with registration_state := some "awaiting_bank_account" },
          ["Please enter your Bank Account Number:"])
  else if state = "awaiting_upi_id" then
    let sess1 := { sess with
      registration_data := { sess.registration_data with upi_id := some text },
      registration_state := some "awaiting_confirmation" }
    let d := sess1.registration_data
    (sheets, sess1,
      ["Please confirm your details:\nUsername: " ++ d.username.getD "" ++
        "\nName: " ++ d.first_name.getD "" ++ " " ++ d.last_name.getD "" ++
        "\nPayment Mode: " ++ d.payment_mode.getD "" ++
        "\nUPI ID: " ++ d.upi_id.getD "" ++ "\n\nIs this correct?"])
  else if state = "awaiting_bank_account" then
    (sheets,
      { sess with registration_data := { sess.registration_data with bank_account := some text },
                  registration_state := some "awaiting_ifsc_code" },
      ["Please enter your IFSC Code:"])
  else if state = "awaiting_ifsc_code" then
    let sess1 := { sess with
      registration_data := { sess.registration_data with ifsc_code := some text },
      registration_state := some "awaiting_confirmation" }
    let d := sess1.registration_data
    (sheets, sess1,
      ["Please confirm your details:\nUsername: " ++ d.username.getD "" ++
        "\nName: " ++ d.first_name.getD "" ++ " " ++ d.last_name.getD "" ++
        "\nPayment Mode: " ++ d.payment_mode.getD "" ++
        "\nBank Account: " ++ d.bank_account.getD "" ++
        "\nIFSC Code: " ++ d.ifsc_code.getD "" ++ "\n\nIs this correct?"])
  else if state = "awaiting_confirmation" then
    if pyLower text = "yes" then
      match UserManager.register_user sheets sess with
      | (sheets2, sess2, ok, msg) =>
        if ok then
          (sheets2, { sess2 with registration_state := none },
            ["Registration successful! You are now logged in as " ++
              pyShow (get_username { sess2 with registration_state := none }) ++ "."])
        else
          (sheets2, sess2, ["Registration failed: " ++ msg ++ ". Please try again."])
    else
      (sheets, { sess with registration_state := none },
        ["Registration cancelled. Please start again if you wish to register."])
  else (sheets, sess, [])

/-- The registration dialogue driven by the router rule for an
in-progress registration: each turn with a registration state set is
dispatched to `handle_registration` with that state (router rule (4));
a turn without one leaves everything unchanged. -/
def reg_step (p : SheetsState × Session) (text : String) : SheetsState × Session :=
  match p.2.registration_state with
  | some st =>
    match handle_registration p.1 p.2 st text with
    | (sheets2, sess2, _) => (sheets2, sess2)
  | none => p

/-- Run a registration input sequence turn by turn. -/
def run_registration (sheets : SheetsState) (sess : Session) (texts : List String) :
    SheetsState × Session :=
  texts.foldl reg_step (sheets, sess)

/-- `check_balance`. -/
def check_balance (sheets : SheetsState) (sess : Session) :
    SheetsState × Session × List String :=
  let username := get_username sess
  if pyFalsy username then
    (sheets, sess, ["You need to be logged in to check your balance."])
  else
    (sheets, sess,
      ["Your current balance is: ₹" ++ GoogleSheetsHelper.get_user_balance sheets username])

/-- `start_withdrawal`. -/
def start_withdrawal (sheets : SheetsState) (sess : Session) :
    SheetsState × Session × List String :=
  let username := get_username sess
  if pyFalsy username then
    (sheets, sess, ["You need to be logged in to withdraw funds."])
  else
    (sheets, { sess with withdraw_state := some "awaiting_amount" },
      ["Please enter the amount you wish to withdraw:"])

/-- `process_withdrawal_request`: build the payment row (falling back to
profile-stored identifiers when the ad-hoc ones are absent or empty),
append it with status "Pending", then re-read the balance and write back
`str(current - amount)`. `none` models the uncaught Python exceptions on
this path (`AttributeError` from `.get` on a missing user, `ValueError`
from `float` on an unparseable stored balance). -/
def process_withdrawal_request (sheets : SheetsState) (sess : Session)
    (payment_mode : Option String) (now : String) :
    Option (SheetsState × Session × List String) :=
  let username := get_username sess
  let wd := sess.withdraw_data
  let amount := wd.amount.getD Fp.zero
  let amountStr := match wd.amount with
    | some a => pyStrFp a
    | none => "0"
  let base := [pyCell username, amountStr, pyCell payment_mode]
  let payment_data? : Option (List String) :=
    if payment_mode = some "UPI" then
      let upi0 := wd.upi_id.getD ""
      if upi0 = "" then
        match GoogleSheetsHelper.get_user_payment_info sheets.users username with
        | none => none
        | some pinfo => some (base ++ [pyCell pinfo.upi_id, ""])
      else some (base ++ [upi0, ""])
    else
      let acct := wd.bank_account.getD ""
      let ifsc := wd.ifsc_code.getD ""
      if acct = "" ∨ ifsc = "" then
        match GoogleSheetsHelper.get_user_payment_info sheets.users username with
        | none => none
        | some pinfo => some (base ++ [pyCell pinfo.bank_account, pyCell pinfo.ifsc_code])
      else some (base ++ [acct, ifsc])
  match payment_data? with
  | none => none
  | some payment_data =>
    match GoogleSheetsHelper.add_payment_request sheets payment_data now with
    | (sheets2, _, _) =>
      -- the append succeeded (remote failures are outside the model), so
      -- the source takes the success branch
      match pyFloat (GoogleSheetsHelper.get_user_balance sheets2 username) with
      | none => none
      | some current =>
        match GoogleSheetsHelper.update_user_balance sheets2 username (current.sub amount) with
        | (sheets3, _, _) =>
          some (sheets3, { sess with withdraw_state := none },
            ["Your payment request for ₹" ++ amountStr ++
              " has been received. It will be processed on 15th of the month.\n\n" ++
              "Please forward a screenshot of this chat to @invoice_earnifybot for reference."])

/-- `handle_withdrawal`: the withdrawal state machine. `none` models the
uncaught exceptions of the commit path (the `try` of `awaiting_amount`
only catches `ValueError`). -/
def handle_withdrawal (sheets : SheetsState) (sess : Session) (state text now : String) :
    Option (SheetsState × Session × List String) :=
  let username := get_username sess
  if state = "awaiting_amount" then
    match pyFloat text with
    | none => some (sheets, sess, ["Please enter a valid number:"])
    | some amount =>
      if Fp.le amount Fp.zero then
        some (sheets, sess, ["Please enter a positive amount:"])
      else
        let sess1 := { sess with
          withdraw_data := { sess.withdraw_data with amount := some amount } }
        match pyFloat (GoogleSheetsHelper.get_user_balance sheets username) with
        | none =>
          -- float() on the stored balance raised ValueError; the same
          -- except clause catches it
          some (sheets, sess1, ["Please enter a valid number:"])
        | some balance =>
          if Fp.lt balance amount then
            some (sheets, { sess1 with withdraw_state := none },
              ["Insufficient balance. Your current balance is: ₹" ++ pyStrFp balance])
          else
            match GoogleSheetsHelper.get_user_payment_info sheets.users username with
            | none => none
            | some pinfo =>
              some (sheets,
                { sess1 with withdraw_state := some "awaiting_payment_mode_confirmation" },
                ["Your default payment mode is: " ++ pyShow pinfo.preferred_mode ++
                  "\nWould you like to use this payment mode?"])
  else if state = "awaiting_payment_mode_confirmation" then
    if pyLower text = "yes" then
      match GoogleSheetsHelper.get_user_payment_info sheets.users username with
      | none => none
      | some pinfo => process_withdrawal_request sheets sess pinfo.preferred_mode now
    else
      some (sheets, { sess with withdraw_state := some "awaiting_new_payment_mode" },
        ["Please select your preferred payment mode for this withdrawal:"])
  else if state = "awaiting_new_payment_mode" then
    if text ≠ "UPI" ∧ text ≠ "Bank Account" then
      some (sheets, sess, ["Please select a valid payment mode:"])
    else if text = "UPI" then
      some (sheets,
        { sess with withdraw_data := { sess.withdraw_data with payment_mode := some "UPI" },
                    withdraw_state := some "awaiting_upi_id" },
        ["Please enter your UPI ID:"])
    else
      some (sheets,
        { sess with
            withdraw_data := { sess.withdraw_data with payment_mode := some "Bank Account" },
            withdraw_state := some "awaiting_bank_account" },
        ["Please enter your Bank Account Number:"])
  else if state = "awaiting_upi_id" then
    let sess1 := { sess with
      withdraw_data := { sess.withdraw_data with upi_id := some text } }
    process_withdrawal_request sheets sess1 (some "UPI") now
  else if state = "awaiting_bank_account" then
    some (sheets,
      { sess with withdraw_data := { sess.withdraw_data with bank_account := some text },
                  withdraw_state := some "awaiting_ifsc_code" },
      ["Please enter your IFSC Code:"])
  else if state = "awaiting_ifsc_code" then
    let sess1 := { sess with
      withdraw_data := { sess.withdraw_data with ifsc_code := some text } }
    process_withdrawal_request sheets sess1 (some "Bank Account") now
  else some (sheets, sess, [])

/-- The main-menu text (`MAIN_MENU` of `config.py`), as `main_menu`
replies with it. -/
def main_menu_reply (sess : Session) : List String :=
  if sess.logged_in then
    ["Main Menu:\n1. Check Balance\n2. Withdraw Funds\n3. Join Channel\n4. Update Profile"]
  else ["You need to login first."]

/-- `handle_profile_update`: the profile-update state machine. -/
def handle_profile_update (sheets : SheetsState) (sess : Session) (state text : String) :
    SheetsState × Session × List String :=
  let username := get_username sess
  if state = "selecting_field" then
    if text = "Back to Main Menu" then
      let sess1 := { sess with update_profile_state := none }
      (sheets, sess1, main_menu_reply sess1)
    else
      match field_mapping text with
      | none => (sheets, sess, ["Please select a valid field to update:"])
      | some field =>
        let sess1 := { sess with update_field := some field }
        if field = "payment_mode" then
          (sheets, { sess1 with update_profile_state := some "updating_payment_mode" },
            ["Please select your new preferred payment mode:"])
        else
          (sheets, { sess1 with update_profile_state := some "updating_field" },
            ["Please enter your new " ++ text ++ ":"])
  else if state = "updating_payment_mode" then
    if text ≠ "UPI" ∧ text ≠ "Bank Account" then
      (sheets, sess, ["Please select a valid payment mode:"])
    else
      match GoogleSheetsHelper.update_user_profile sheets username
          (pyShow sess.update_field) text with
      | (sheets2, ok, msg) =>
        if ok then
          (sheets2, { sess with update_profile_state := none },
            ["Your payment mode has been updated to " ++ text ++
              ".\n\nYou may also want to update your UPI ID or Bank Account details."])
        else
          (sheets2, { sess with update_profile_state := none },
            ["Failed to update profile: " ++ msg])
  else if state = "updating_field" then
    match GoogleSheetsHelper.update_user_profile sheets username
        (pyShow sess.update_field) text with
    | (sheets2, ok, msg) =>
      if ok then
        (sheets2, { sess with update_profile_state := none },
          ["Your profile has been updated successfully."])
      else
        (sheets2, { sess with update_profile_state := none },
          ["Failed to update profile: " ++ msg])
  else (sheets, sess, [])

/-- `start_registration`. -/
def start_registration (sheets : SheetsState) (sess : Session) :
    SheetsState × Session × List String :=
  (sheets, { sess with registration_state := some "awaiting_username" },
    ["Please enter your desired username:"])

/-- `join_channel`. -/
def join_channel (sheets : SheetsState) (sess : Session) :
    SheetsState × Session × List String :=
  if sess.logged_in then
    (sheets, sess,
      ["To join our channel, please click this link: https://t.me/employeechannel\n" ++
        "This is where we share important announcements and updates."])
  else (sheets, sess, ["You need to be logged in to join the channel."])

/-- `start_profile_update`. -/
def start_profile_update (sheets : SheetsState) (sess : Session) :
    SheetsState × Session × List String :=
  if sess.logged_in then
    (sheets, { sess with update_profile_state := some "selecting_field" },
      ["Which part of your profile would you like to update?"])
  else (sheets, sess, ["You need to be logged in to update your profile."])

/-- `process_login`: validate the just-entered username and drop the
`login_username_provided` flag either way. -/
def process_login (sheets : SheetsState) (sess : Session) (text : String) :
    SheetsState × Session × List String :=
  match UserManager.login_user sheets sess text with
  | (sess2, true) =>
    (sheets, sess2, ["Login successful! Welcome back, " ++ text ++ "."])
  | (sess2, false) =>
    (sheets, sess2, ["Login failed. Username not found."])

/-- Result of one routed message: the sheets, the session (`none` when
`logout` removed it), the `login_username_provided` flag of
`context.user_data`, and the replies sent. -/
structure MsgResult where
  sheets : SheetsState
  sess : Option Session
  login_flag : Bool
  replies : List String
deriving DecidableEq, Repr

/-- `handle_message`: the router. It assumes the session of the sender
exists (the source creates it first thing). The branches follow the
source exactly: welcome keywords, then "Logout", then the main-menu
keywords gated on being logged in, then an in-progress registration,
then a pending login, then an in-progress withdrawal, then an
in-progress profile update, then the fallback reply. `none` models an
uncaught exception escaping from `handle_withdrawal`. -/
def handle_message (sheets : SheetsState) (sess : Session) (login_flag : Bool)
    (text now : String) : Option MsgResult :=
  if text = "1. Signup" ∨ text = "Signup" then
    match start_registration sheets sess with
    | (s2, ss2, rs) => some ⟨s2, some ss2, login_flag, rs⟩
  else if text = "2. Login" ∨ text = "Login" then
    some ⟨sheets, some sess, true, ["Please enter your username:"]⟩
  else if text = "Logout" then
    some ⟨sheets, none, login_flag,
      ["You have been logged out. Type /start to begin again."]⟩
  else if sess.logged_in = true ∧ (text = "1. Check Balance" ∨ text = "Check Balance") then
    match check_balance sheets sess with
    | (s2, ss2, rs) => some ⟨s2, some ss2, login_flag, rs⟩
  else if sess.logged_in = true ∧ (text = "2. Withdraw Funds" ∨ text = "Withdraw Funds") then
    match start_withdrawal sheets sess with
    | (s2, ss2, rs) => some ⟨s2, some ss2, login_flag, rs⟩
  else if sess.logged_in = true ∧ (text = "3. Join Channel" ∨ text = "Join Channel") then
    match join_channel sheets sess with
    | (s2, ss2, rs) => some ⟨s2, some ss2, login_flag, rs⟩
  else if sess.logged_in = true ∧ (text = "4. Update Profile" ∨ text = "Update Profile") then
    match start_profile_update sheets sess with
    | (s2, ss2, rs) => some ⟨s2, some ss2, login_flag, rs⟩
  else if sess.logged_in = true ∧ text = "Back to Main Menu" then
    some ⟨sheets, some sess, login_flag, main_menu_reply sess⟩
  else
    match sess.registration_state with
    | some st =>
      match handle_registration sheets sess st text with
      | (s2, ss2, rs) => some ⟨s2, some ss2, login_flag, rs⟩
    | none =>
      if sess.logged_in = false ∧ login_flag = true then
        match process_login sheets sess text with
        | (s2, ss2, rs) => some ⟨s2, some ss2, false, rs⟩
      else
        match sess.withdraw_state with
        | some st =>
          (handle_withdrawal sheets sess st text now).map
            (fun r => ⟨r.1, some r.2.1, login_flag, r.2.2⟩)
        | none =>
          match sess.update_profile_state with
          | some st =>
            match handle_profile_update sheets sess st text with
            | (s2, ss2, rs) => some ⟨s2, some ss2, login_flag, rs⟩
          | none =>
            some ⟨sheets, some sess, login_flag,
              ["I didn\x27t understand that. Please use the menu options."]⟩

/-! ## The session store (`UserManager` over `active_users`)

The dict `active_users` is modelled as an association list keyed by the
user identifier. The getters and setters of the source all guard with
`if user_id in self.active_users`; `login_user` and `register_user` do
not, so their unguarded `self.active_users[user_id]` lookups are
modelled with `Except`, an `Except.error "KeyError"` being the uncaught
Python `KeyError` on an unknown id. -/

abbrev Store := List (Nat × Session)

namespace UserManager

def store_find : Store → Nat → Option Session
  | [], _ => none
  | (k, s) :: t, id => if k = id then some s else store_find t id

/-- Dict assignment `active_users[id] = s`. -/
def store_set : Store → Nat → Session → Store
  | [], id, s => [(id, s)]
  | (k, s0) :: t, id, s =>
    if k = id then (id, s) :: t else (k, s0) :: store_set t id s

/-- Dict deletion `del active_users[id]` (on a present key). -/
def store_erase : Store → Nat → Store
  | [], _ => []
  | (k, s0) :: t, id => if k = id then t else (k, s0) :: store_erase t id

/-- `start_session`: install a default session unless one exists. -/
def start_session (st : Store) (id : Nat) : Store :=
  match store_find st id with
  | some _ => st
  | none => store_set st id default_session

/-- `end_session`: remove the session if present. -/
def end_session (st : Store) (id : Nat) : Store :=
  match store_find st id with
  | some _ => store_erase st id
  | none => st

/-- `is_logged_in`. -/
def is_logged_in (st : Store) (id : Nat) : Bool :=
  match store_find st id with
  | some s => s.logged_in
  | none => false

/-- `get_username` (store level). -/
def get_username_store (st : Store) (id : Nat) : Option String :=
  if is_logged_in st id then
    match store_find st id with
    | some s => s.username
    | none => none
  else none

def set_registration_state (st : Store) (id : Nat) (v : Option String) : Store :=
  match store_find st id with
  | some s => store_set st id { s with registration_state := v }
  | none => st

def get_registration_state (st : Store) (id : Nat) : Option String :=
  match store_find st id with
  | some s => s.registration_state
  | none => none

def set_registration_data (st : Store) (id : Nat) (f : RegData → RegData) : Store :=
  match store_find st id with
  | some s => store_set st id { s with registration_data := f s.registration_data }
  | none => st

def get_registration_data (st : Store) (id : Nat) : RegData :=
  match store_find st id with
  | some s => s.registration_data
  | none => emptyRegData

def set_withdraw_state (st : Store) (id : Nat) (v : Option String) : Store :=
  match store_find st id with
  | some s => store_set st id { s with withdraw_state := v }
  | none => st

def get_withdraw_state (st : Store) (id : Nat) : Option String :=
  match store_find st id with
  | some s => s.withdraw_state
  | none => none

def set_withdraw_data (st : Store) (id : Nat) (f : WithdrawData → WithdrawData) : Store :=
  match store_find st id with
  | some s => store_set st id { s with withdraw_data := f s.withdraw_data }
  | none => st

def get_withdraw_data (st : Store) (id : Nat) : WithdrawData :=
  match store_find st id with
  | some s => s.withdraw_data
  | none => emptyWithdrawData

def set_update_profile_state (st : Store) (id : Nat) (v : Option String) : Store :=
  match store_find st id with
  | some s => store_set st id { s with update_profile_state := v }
  | none => st

def get_update_profile_state (st : Store) (id : Nat) : Option String :=
  match store_find st id with
  | some s => s.update_profile_state
  | none => none

def set_update_field (st : Store) (id : Nat) (v : Option String) : Store :=
  match store_find st id with
  | some s => store_set st id { s with update_field := v }
  | none => st

def get_update_field (st : Store) (id : Nat) : Option String :=
  match store_find st id with
  | some s => s.update_field
  | none => none

/-- `login_user` at the store level: when the username exists, the
source assigns into `active_users[user_id]` without a guard, so an
unknown id raises `KeyError` there. -/
def login_user_store (sheets : SheetsState) (st : Store) (id : Nat) (username : String) :
    Except String (Store × Bool) :=
  match GoogleSheetsHelper.find_user_by_username sheets.users (some username) with
  | some _ =>
    match store_find st id with
    | some s =>
      Except.ok (store_set st id { s with username := some username, logged_in := true },
        true)
    | none => Except.error "KeyError"
  | none => Except.ok (st, false)

/-- `register_user` at the store level: the very first line reads
`active_users[user_id]` without a guard, so an unknown id raises
`KeyError` before anything else happens. -/
def register_user_store (sheets : SheetsState) (st : Store) (id : Nat) :
    Except String (SheetsState × Store × Bool × String) :=
  match store_find st id with
  | none => Except.error "KeyError"
  | some sess =>
    match register_user sheets sess with
    | (sheets2, sess2, ok, msg) => Except.ok (sheets2, store_set st id sess2, ok, msg)

end UserManager

/-! ## Concrete fixtures shared by the witnesses -/

/-- A registered user row: alice with UPI mode and balance "100". -/
def aliceRow : List String := ["alice", "Alice", "Lee", "UPI", "alice@upi", "", "", "100"]

/-- A Users table holding only alice, and an empty Payments table. -/
def aliceSheets : SheetsState := ⟨[aliceRow], []⟩

/-- A session logged in as alice. -/
def aliceSession : Session :=
  { default_session with username := some "alice", logged_in := true }

/-! ## Helper lemmas -/

lemma pow2_pos (n : Nat) : (0 : Int) < (pow2N n : Int) := by
  induction n with
  | zero => norm_num [pow2N]
  | succ n ih =>
    have : (pow2N (n + 1) : Int) = 2 * (pow2N n : Int) := by
      simp [pow2N]
    rw [this]
    exact mul_pos (by norm_num) ih

lemma Fp.zero_lt_of_le_lt {A B : Fp} (h0 : Fp.le Fp.zero B) (h : Fp.lt B A) :
    Fp.lt Fp.zero A := by
  unfold Fp.le Fp.lt Fp.zero at *
  simp only [zero_mul] at h0 ⊢
  have hB : 0 ≤ B.num := by
    by_contra hneg
    push_neg at hneg
    nlinarith [pow2_pos ((B.exp - min (0 : Int) B.exp).toNat)]
  have hA : 0 < A.num := by
    by_contra hneg
    push_neg at hneg
    nlinarith [pow2_pos ((B.exp - min B.exp A.exp).toNat),
      pow2_pos ((A.exp - min B.exp A.exp).toNat),
      mul_nonneg hB (le_of_lt (pow2_pos ((B.exp - min B.exp A.exp).toNat)))]
  exact mul_pos hA (pow2_pos _)

lemma Fp.not_le_zero {A : Fp} (h : Fp.lt Fp.zero A) : ¬ Fp.le A Fp.zero := by
  unfold Fp.le Fp.lt Fp.zero at *
  simp only [zero_mul] at h ⊢
  intro hle
  have hA : 0 < A.num := by
    by_contra hneg
    push_neg at hneg
    nlinarith [pow2_pos ((A.exp - min (0 : Int) A.exp).toNat)]
  nlinarith [pow2_pos ((A.exp - min A.exp (0 : Int)).toNat)]

/-- `check_balance` never changes the session. -/
lemma check_balance_sess (sheets : SheetsState) (sess : Session) :
    (check_balance sheets sess).2.1 = sess := by
  simp only [check_balance]
  split <;> rfl

/-! ## Claims -/

/-- Claim C10: every Users row built by the registration commit has
exactly 8 cells with the balance "0" in the last position, and depending
on the chosen payment mode exactly one of the identifier groups is
filled: for "UPI" the UPI ID cell is the entered value and the
bank-account and IFSC cells are empty; for "Bank Account" the UPI ID
cell is empty and the bank-account and IFSC cells hold the entered
values. -/
theorem C10_registration_row_shape (d : RegData) :
    (UserManager.build_user_row d).length = 8 ∧
    (UserManager.build_user_row d).getD 7 "" = "0" ∧
    (d.payment_mode = some "UPI" →
      (UserManager.build_user_row d).getD 4 "" = d.upi_id.getD "" ∧
      (UserManager.build_user_row d).getD 5 "" = "" ∧
      (UserManager.build_user_row d).getD 6 "" = "") ∧
    (d.payment_mode = some "Bank Account" →
      (UserManager.build_user_row d).getD 4 "" = "" ∧
      (UserManager.build_user_row d).getD 5 "" = d.bank_account.getD "" ∧
      (UserManager.build_user_row d).getD 6 "" = d.ifsc_code.getD "") := by
  simp only [UserManager.build_user_row]
  refine ⟨?_, ?_, ?_, ?_⟩
  · split_ifs <;> rfl
  · split_ifs <;> rfl
  · intro h
    rw [h]
    simp
  · intro h
    rw [h]
    simp

/-- Witness for C10 at two concrete scratch maps, one per payment
mode. -/
theorem C10_registration_row_shape_witness :
    ((UserManager.build_user_row
        { emptyRegData with payment_mode := some "UPI", upi_id := some "x@y" }).getD 4 ""
      = "x@y" ∧
     (UserManager.build_user_row
        { emptyRegData with payment_mode := some "UPI", upi_id := some "x@y" }).getD 5 ""
      = "") ∧
    ((UserManager.build_user_row
        { emptyRegData with payment_mode := some "Bank Account",
                            bank_account := some "111", ifsc_code := some "IF1" }).getD 4 ""
      = "" ∧
     (UserManager.build_user_row
        { emptyRegData with payment_mode := some "Bank Account",
                            bank_account := some "111", ifsc_code := some "IF1" }).getD 5 ""
      = "111") := by
  have h1 := (C10_registration_row_shape
    { emptyRegData with payment_mode := some "UPI", upi_id := some "x@y" }).2.2.1 rfl
  have h2 := (C10_registration_row_shape
    { emptyRegData with payment_mode := some "Bank Account",
                        bank_account := some "111", ifsc_code := some "IF1" }).2.2.2 rfl
  exact ⟨⟨h1.1, h1.2.1⟩, ⟨h2.1, h2.2.1⟩⟩

/-- Claim C6: a registration turn in state `awaiting_username` whose
entered username already exists in the Users table appends no row,
changes nothing, and leaves the session at the username prompt
(registration state still `awaiting_username`). -/
theorem C6_duplicate_username_rejected (sheets : SheetsState) (sess : Session)
    (text : String) (r : List String × Nat)
    (hst : sess.registration_state = some "awaiting_username")
    (hfind : GoogleSheetsHelper.find_user_by_username sheets.users (some text) = some r) :
    handle_registration sheets sess "awaiting_username" text =
      (sheets, sess, ["This username already exists. Please choose another username:"]) ∧
    sess.registration_state = some "awaiting_username" := by
  refine ⟨?_, hst⟩
  unfold handle_registration
  simp [hfind]

/-- Witness for C6: alice is already registered. -/
theorem C6_duplicate_username_rejected_witness :
    handle_registration aliceSheets
        { default_session with registration_state := some "awaiting_username" }
        "awaiting_username" "alice" =
      (aliceSheets,
        { default_session with registration_state := some "awaiting_username" },
        ["This username already exists. Please choose another username:"]) :=
  (C6_duplicate_username_rejected aliceSheets
    { default_session with registration_state := some "awaiting_username" } "alice"
    (aliceRow, 0) rfl rfl).1

/-- Claim C7: a withdrawal turn in state `awaiting_amount` whose text is
not parseable as a number, or parses to a value ≤ 0, leaves the flow in
`awaiting_amount` (session and sheets unchanged, so no Record Store
write occurs). -/
theorem C7_bad_amount_stays (sheets : SheetsState) (sess : Session) (text now : String)
    (hst : sess.withdraw_state = some "awaiting_amount")
    (hbad : pyFloat text = none ∨ ∃ a, pyFloat text = some a ∧ Fp.le a Fp.zero) :
    (∃ msgs, handle_withdrawal sheets sess "awaiting_amount" text now =
        some (sheets, sess, msgs)) ∧
    sess.withdraw_state = some "awaiting_amount" := by
  refine ⟨?_, hst⟩
  rcases hbad with h | ⟨a, ha, hle⟩
  · refine ⟨["Please enter a valid number:"], ?_⟩
    unfold handle_withdrawal
    simp [h]
  · refine ⟨["Please enter a positive amount:"], ?_⟩
    unfold handle_withdrawal
    simp [ha, hle]

/-- Witness for C7 at a non-numeric text and at a non-positive amount. -/
theorem C7_bad_amount_stays_witness :
    (∃ msgs, handle_withdrawal aliceSheets
        { aliceSession with withdraw_state := some "awaiting_amount" }
        "awaiting_amount" "abc" "ts" =
      some (aliceSheets,
        { aliceSession with withdraw_state := some "awaiting_amount" }, msgs)) ∧
    (∃ msgs, handle_withdrawal aliceSheets
        { aliceSession with withdraw_state := some "awaiting_amount" }
        "awaiting_amount" "-5" "ts" =
      some (aliceSheets,
        { aliceSession with withdraw_state := some "awaiting_amount" }, msgs)) := by
  constructor
  · exact (C7_bad_amount_stays aliceSheets
      { aliceSession with withdraw_state := some "awaiting_amount" } "abc" "ts" rfl
      (Or.inl rfl)).1
  · exact (C7_bad_amount_stays aliceSheets
      { aliceSession with withdraw_state := some "awaiting_amount" } "-5" "ts" rfl
      (Or.inr ⟨⟨-5629499534213120, -50⟩, by decide, by decide⟩)).1

/-- Claim C5: a withdrawal turn in state `awaiting_amount` whose entered
amount parses to a value strictly greater than the stored balance aborts
the withdrawal: the state is cleared, the sheets are untouched (no
Payments row, no balance change), and the reply reports the current
balance. The balance is nonnegative, per the data-model invariant of the
spec. -/
theorem C5_insufficient_balance_aborts (sheets : SheetsState) (sess : Session)
    (text now u : String) (A B : Fp)
    (hlog : sess.logged_in = true) (huser : sess.username = some u)
    (hst : sess.withdraw_state = some "awaiting_amount")
    (hbal : pyFloat (GoogleSheetsHelper.get_user_balance sheets (some u)) = some B)
    (hBnn : Fp.le Fp.zero B)
    (hA : pyFloat text = some A)
    (hgt : Fp.lt B A) :
    handle_withdrawal sheets sess "awaiting_amount" text now =
      some (sheets,
        { sess with withdraw_data := { sess.withdraw_data with amount := some A },
                    withdraw_state := none },
        ["Insufficient balance. Your current balance is: ₹" ++ pyStrFp B]) := by
  have hposA : Fp.lt Fp.zero A := Fp.zero_lt_of_le_lt hBnn hgt
  have hnle : ¬ Fp.le A Fp.zero := Fp.not_le_zero hposA
  unfold handle_withdrawal
  simp [get_username, hlog, huser, hA, hnle, hbal, hgt]

/-- Witness for C5: alice has balance "100" and asks to withdraw 150. -/
theorem C5_insufficient_balance_aborts_witness :
    handle_withdrawal aliceSheets
        { aliceSession with withdraw_state := some "awaiting_amount" }
        "awaiting_amount" "150" "ts" =
      some (aliceSheets,
        { aliceSession with
            withdraw_data := { emptyWithdrawData with
              amount := some ⟨5277655813324800, -45⟩ },
            withdraw_state := none },
        ["Insufficient balance. Your current balance is: ₹" ++
          pyStrFp ⟨7036874417766400, -46⟩]) := by
  exact C5_insufficient_balance_aborts aliceSheets
    { aliceSession with withdraw_state := some "awaiting_amount" }
    "150" "ts" "alice" ⟨5277655813324800, -45⟩ ⟨7036874417766400, -46⟩
    rfl rfl rfl (by decide) (by decide) (by decide) (by decide)

/-- Claim C8: a logged-in session whose withdraw_state is
`awaiting_amount` receiving the text "Check Balance" is routed by
`handle_message` to `check_balance` (not to the withdrawal handler), and
the session — hence its withdraw_state — is left unchanged. -/
theorem C8_check_balance_wins_over_withdrawal (sheets : SheetsState) (sess : Session)
    (login_flag : Bool) (now : String)
    (hlog : sess.logged_in = true)
    (hwd : sess.withdraw_state = some "awaiting_amount") :
    handle_message sheets sess login_flag "Check Balance" now =
      some ⟨(check_balance sheets sess).1, some sess, login_flag,
        (check_balance sheets sess).2.2⟩ ∧
    sess.withdraw_state = some "awaiting_amount" := by
  refine ⟨?_, hwd⟩
  have hsess := check_balance_sess sheets sess
  unfold handle_message
  rcases hcb : check_balance sheets sess with ⟨s2, ss2, rs⟩
  rw [hcb] at hsess
  simp at hsess
  simp [hlog, hcb, hsess]

/-- Witness for C8: alice, logged in and mid-withdrawal, sends
"Check Balance". -/
theorem C8_check_balance_wins_over_withdrawal_witness :
    handle_message aliceSheets
        { aliceSession with withdraw_state := some "awaiting_amount" }
        false "Check Balance" "ts" =
      some ⟨(check_balance aliceSheets
          { aliceSession with withdraw_state := some "awaiting_amount" }).1,
        some { aliceSession with withdraw_state := some "awaiting_amount" },
        false,
        (check_balance aliceSheets
          { aliceSession with withdraw_state := some "awaiting_amount" }).2.2⟩ :=
  (C8_check_balance_wins_over_withdrawal aliceSheets
    { aliceSession with withdraw_state := some "awaiting_amount" }
    false "ts" rfl rfl).1

/-- `get_user_balance` reads only the Users table. -/
lemma get_user_balance_payments (sheets : SheetsState) (x : Option String)
    (pd : List (List String)) :
    GoogleSheetsHelper.get_user_balance ⟨sheets.users, pd⟩ x =
      GoogleSheetsHelper.get_user_balance sheets x := rfl

/-- The Users table of the C1 counterexample: bob with stored balance
"0.3". -/
def bobRow : List String := ["bob", "Bo", "By", "UPI", "b@upi", "", "", "0.3"]

/-- Sheets holding only bob. -/
def bobSheets : SheetsState := ⟨[bobRow], []⟩

/-- The session of the C1 counterexample: bob logged in, withdrawing the
amount entered as "0.1" (stored in the scratch map as the double
`float("0.1")`), with an ad-hoc UPI id. -/
def bobSession : Session :=
  { default_session with
      username := some "bob"
      logged_in := true
      withdraw_data :=
        { emptyWithdrawData with
            amount := some (fpOfDec ⟨1, 1⟩)
            upi_id := some "b@upi" } }

/-- Claim C1 counterexample: with stored balance "0.3" and entered
amount 0.1 (so 0 < A ≤ B), the commit stores "0.19999999999999998" — the
Python str of the double difference — and not "0.2", the decimal text of
B − A = 0.2 (the third conjunct pins down that the exact value 0.2
prints as "0.2"). So the claim as stated — balance updated to exactly
the decimal text of B − A — is false on the program. -/
theorem C1_counterexample_inexact_subtraction :
    pyFloat "0.1" = some (fpOfDec ⟨1, 1⟩) ∧
    pyFloat (GoogleSheetsHelper.get_user_balance bobSheets (some "bob"))
      = some (fpOfDec ⟨3, 1⟩) ∧
    Fp.lt Fp.zero (fpOfDec ⟨1, 1⟩) ∧
    Fp.le (fpOfDec ⟨1, 1⟩) (fpOfDec ⟨3, 1⟩) ∧
    (process_withdrawal_request bobSheets bobSession (some "UPI") "ts").map
        (fun r => GoogleSheetsHelper.get_user_balance r.1 (some "bob"))
      = some "0.19999999999999998" ∧
    pyStrFp (fpOfDec ⟨2, 1⟩) = "0.2" ∧
    "0.19999999999999998" ≠ "0.2" := by decide

/-- Claim C1 as amended: a withdrawal of amount A (0 < A ≤ B) by
logged-in user u, whose stored balance parses to the double B, that
reaches the commit appends exactly one Payments row whose status field
(cell 6) is "Pending", and then overwrites the stored balance cell of u
with the decimal text of the IEEE-754 double difference B − A — which
equals the exact decimal text of the real difference only when the
binary subtraction is exact (as at "100" − 30, which stores "70.0"),
and not in general (as at "0.3" − 0.1, which stores
"0.19999999999999998"). -/
theorem C1_withdrawal_commit_float_text (sheets : SheetsState) (sess : Session)
    (mode : Option String) (now u : String) (row : List String) (i : Nat) (A B : Fp)
    (hlog : sess.logged_in = true) (huser : sess.username = some u)
    (hfind : GoogleSheetsHelper.find_user_by_username sheets.users (some u) = some (row, i))
    (hbal : pyFloat (GoogleSheetsHelper.get_user_balance sheets (some u)) = some B)
    (hamt : sess.withdraw_data.amount = some A)
    (hpos : Fp.lt Fp.zero A) (hle : Fp.le A B) :
    ∃ prow msgs,
      process_withdrawal_request sheets sess mode now =
        some (⟨sheets.users.set i (setCell row 7 (pyStrFp (B.sub A))),
                sheets.payments ++ [prow]⟩,
          { sess with withdraw_state := none }, msgs) ∧
      prow.length = 7 ∧ prow.getD 6 "" = "Pending" := by
  have hgu : get_username sess = some u := by simp [get_username, hlog, huser]
  have hpinfo : GoogleSheetsHelper.get_user_payment_info sheets.users (some u) =
      some ⟨cellOpt row 3, cellOpt row 4, cellOpt row 5, cellOpt row 6⟩ := by
    unfold GoogleSheetsHelper.get_user_payment_info
    rw [hfind]
  by_cases hm : mode = some "UPI"
  · by_cases hu : sess.withdraw_data.upi_id.getD "" = ""
    · refine ⟨[u, pyStrFp A, pyCell mode, pyCell (cellOpt row 4), "", now, "Pending"],
        ["Your payment request for ₹" ++ pyStrFp A ++
          " has been received. It will be processed on 15th of the month.\n\n" ++
          "Please forward a screenshot of this chat to @invoice_earnifybot for reference."],
        ?_, by simp, by simp⟩
      simp only [process_withdrawal_request, hgu, hamt, hm, if_true, hu,
        GoogleSheetsHelper.add_payment_request, get_user_balance_payments, hbal,
        GoogleSheetsHelper.update_user_balance, hfind, hpinfo]
      simp [hm, pyCell]
    · refine ⟨[u, pyStrFp A, pyCell mode, sess.withdraw_data.upi_id.getD "", "",
          now, "Pending"],
        ["Your payment request for ₹" ++ pyStrFp A ++
          " has been received. It will be processed on 15th of the month.\n\n" ++
          "Please forward a screenshot of this chat to @invoice_earnifybot for reference."],
        ?_, by simp, by simp⟩
      simp only [process_withdrawal_request, hgu, hamt, hm, if_true, hu,
        GoogleSheetsHelper.add_payment_request, get_user_balance_payments, hbal,
        GoogleSheetsHelper.update_user_balance, hfind, hpinfo]
      simp [hm, hu, pyCell]
  · by_cases hbk : sess.withdraw_data.bank_account.getD "" = "" ∨
        sess.withdraw_data.ifsc_code.getD "" = ""
    · refine ⟨[u, pyStrFp A, pyCell mode, pyCell (cellOpt row 5), pyCell (cellOpt row 6),
          now, "Pending"],
        ["Your payment request for ₹" ++ pyStrFp A ++
          " has been received. It will be processed on 15th of the month.\n\n" ++
          "Please forward a screenshot of this chat to @invoice_earnifybot for reference."],
        ?_, by simp, by simp⟩
      simp only [process_withdrawal_request, hgu, hamt,
        GoogleSheetsHelper.add_payment_request, get_user_balance_payments, hbal,
        GoogleSheetsHelper.update_user_balance, hfind, hpinfo]
      simp [hm, hbk, pyCell]
    · refine ⟨[u, pyStrFp A, pyCell mode, sess.withdraw_data.bank_account.getD "",
          sess.withdraw_data.ifsc_code.getD "", now, "Pending"],
        ["Your payment request for ₹" ++ pyStrFp A ++
          " has been received. It will be processed on 15th of the month.\n\n" ++
          "Please forward a screenshot of this chat to @invoice_earnifybot for reference."],
        ?_, by simp, by simp⟩
      simp only [process_withdrawal_request, hgu, hamt,
        GoogleSheetsHelper.add_payment_request, get_user_balance_payments, hbal,
        GoogleSheetsHelper.update_user_balance, hfind, hpinfo]
      simp [hm, hbk, pyCell]

/-- The session of the C1 witness: alice logged in, mid-withdrawal with
the amount entered as "30" (the double of 30) and an ad-hoc UPI id. -/
def aliceWdSession : Session :=
  { aliceSession with
      withdraw_data :=
        { emptyWithdrawData with
            amount := some ⟨8444249301319680, -48⟩
            upi_id := some "x@upi" } }

/-- Witness for the amended C1: alice withdraws 30 from balance "100"
over UPI; here the double subtraction is exact and the stored text is
"70.0". -/
theorem C1_withdrawal_commit_float_text_witness :
    (∃ prow msgs,
      process_withdrawal_request aliceSheets aliceWdSession (some "UPI") "ts" =
        some (⟨aliceSheets.users.set 0
                (setCell aliceRow 7
                  (pyStrFp (Fp.sub ⟨7036874417766400, -46⟩ ⟨8444249301319680, -48⟩))),
               aliceSheets.payments ++ [prow]⟩,
          { aliceWdSession with withdraw_state := none }, msgs) ∧
      prow.length = 7 ∧ prow.getD 6 "" = "Pending") ∧
    pyStrFp (Fp.sub ⟨7036874417766400, -46⟩ ⟨8444249301319680, -48⟩) = "70.0" :=
  ⟨C1_withdrawal_commit_float_text aliceSheets aliceWdSession
    (some "UPI") "ts" "alice" aliceRow 0 ⟨8444249301319680, -48⟩ ⟨7036874417766400, -46⟩
    rfl rfl (by decide) (by decide) rfl (by decide) (by decide), by decide⟩

/-- Claim C3: a registration dialogue starting at `awaiting_username`
whose entered username u is not yet in the Users table and that ends
with a case-insensitive "yes" confirmation appends exactly one Users row
holding the entered fields (with the mode-specific identifier cells) and
balance "0", logs the session in as u, and clears the registration
state. Stated for both payment modes. -/
theorem C3_registration_appends_once (sheets : SheetsState) (sess : Session)
    (u f l p q c : String)
    (hfind : GoogleSheetsHelper.find_user_by_username sheets.users (some u) = none)
    (hyes : pyLower c = "yes")
    (hst : sess.registration_state = some "awaiting_username") :
    ((run_registration sheets sess [u, f, l, "UPI", p, c]).1.users
        = sheets.users ++ [[u, f, l, "UPI", p, "", "", "0"]] ∧
      (run_registration sheets sess [u, f, l, "UPI", p, c]).1.payments = sheets.payments ∧
      (run_registration sheets sess [u, f, l, "UPI", p, c]).2.logged_in = true ∧
      (run_registration sheets sess [u, f, l, "UPI", p, c]).2.username = some u ∧
      (run_registration sheets sess [u, f, l, "UPI", p, c]).2.registration_state = none) ∧
    ((run_registration sheets sess [u, f, l, "Bank Account", p, q, c]).1.users
        = sheets.users ++ [[u, f, l, "Bank Account", "", p, q, "0"]] ∧
      (run_registration sheets sess [u, f, l, "Bank Account", p, q, c]).1.payments
        = sheets.payments ∧
      (run_registration sheets sess [u, f, l, "Bank Account", p, q, c]).2.logged_in = true ∧
      (run_registration sheets sess [u, f, l, "Bank Account", p, q, c]).2.username
        = some u ∧
      (run_registration sheets sess [u, f, l, "Bank Account", p, q, c]).2.registration_state
        = none) := by
  constructor
  · simp only [run_registration, List.foldl, reg_step, hst]
    simp [handle_registration, hfind, hyes, UserManager.register_user,
      GoogleSheetsHelper.register_user, UserManager.build_user_row]
  · simp only [run_registration, List.foldl, reg_step, hst]
    simp [handle_registration, hfind, hyes, UserManager.register_user,
      GoogleSheetsHelper.register_user, UserManager.build_user_row]

/-- Witness for C3: bob registers over UPI into an empty Users table. -/
theorem C3_registration_appends_once_witness :
    (run_registration ⟨[], []⟩
        { default_session with registration_state := some "awaiting_username" }
        ["bob", "Bob", "Roy", "UPI", "bob@upi", "Yes"]).1.users
      = [] ++ [["bob", "Bob", "Roy", "UPI", "bob@upi", "", "", "0"]] ∧
    (run_registration ⟨[], []⟩
        { default_session with registration_state := some "awaiting_username" }
        ["bob", "Bob", "Roy", "UPI", "bob@upi", "Yes"]).2.logged_in = true ∧
    (run_registration ⟨[], []⟩
        { default_session with registration_state := some "awaiting_username" }
        ["bob", "Bob", "Roy", "UPI", "bob@upi", "Yes"]).2.username = some "bob" ∧
    (run_registration ⟨[], []⟩
        { default_session with registration_state := some "awaiting_username" }
        ["bob", "Bob", "Roy", "UPI", "bob@upi", "Yes"]).2.registration_state = none := by
  have h := (C3_registration_appends_once ⟨[], []⟩
    { default_session with registration_state := some "awaiting_username" }
    "bob" "Bob" "Roy" "bob@upi" "q" "Yes" rfl (by decide) rfl).1
  exact ⟨h.1, h.2.2.1, h.2.2.2.1, h.2.2.2.2⟩

/-- The session of the C4 counterexample: a registration waiting for
confirmation with the username "bob" in its scratch data. -/
def regConfirmSession : Session :=
  { default_session with
      registration_state := some "awaiting_confirmation"
      registration_data := { emptyRegData with username := some "bob" } }

/-- Claim C4 counterexample: cancelling the registration dialogue (any
non-"yes" confirmation input) resets the registration state, but the
scratch data is NOT cleared — it still holds the entered username, so
the claim that terminating a dialogue clears its scratch data is false
on this input. -/
theorem C4_counterexample_scratch_persists :
    (handle_registration ⟨[], []⟩ regConfirmSession
        "awaiting_confirmation" "no").2.1.registration_state = none ∧
    (handle_registration ⟨[], []⟩ regConfirmSession
        "awaiting_confirmation" "no").2.1.registration_data
      = { emptyRegData with username := some "bob" } ∧
    ({ emptyRegData with username := some "bob" } : RegData) ≠ emptyRegData := by
  decide

/-- Claim C4 as amended: when a dialogue terminates, the state of that
dialogue is reset to none, but its scratch data is not cleared — it
persists unchanged in the session. Stated for the terminal transitions:
registration cancellation, registration commit success, any successful
withdrawal commit, and the free-text profile-update terminal (which
clears the state whether the store write succeeds or fails). -/
theorem C4_amended_state_reset_scratch_persists :
    (∀ (sheets : SheetsState) (sess : Session) (t : String), pyLower t ≠ "yes" →
      (handle_registration sheets sess "awaiting_confirmation" t).2.1.registration_state
        = none ∧
      (handle_registration sheets sess "awaiting_confirmation" t).2.1.registration_data
        = sess.registration_data) ∧
    (∀ (sheets : SheetsState) (sess : Session) (t : String), pyLower t = "yes" →
      GoogleSheetsHelper.find_user_by_username sheets.users
        (some ((UserManager.build_user_row sess.registration_data).headD "")) = none →
      (handle_registration sheets sess "awaiting_confirmation" t).2.1.registration_state
        = none ∧
      (handle_registration sheets sess "awaiting_confirmation" t).2.1.registration_data
        = sess.registration_data) ∧
    (∀ (sheets : SheetsState) (sess : Session) (mode : Option String) (now : String) r,
      process_withdrawal_request sheets sess mode now = some r →
      r.2.1.withdraw_state = none ∧ r.2.1.withdraw_data = sess.withdraw_data) ∧
    (∀ (sheets : SheetsState) (sess : Session) (t : String),
      (handle_profile_update sheets sess "updating_field" t).2.1.update_profile_state
        = none ∧
      (handle_profile_update sheets sess "updating_field" t).2.1.update_field
        = sess.update_field) := by
  refine ⟨?_, ?_, ?_, ?_⟩
  · intro sheets sess t ht
    constructor <;> simp [handle_registration, ht]
  · intro sheets sess t ht hfind
    rw [List.headD_eq_head?] at hfind
    constructor <;>
      simp [handle_registration, ht, UserManager.register_user,
        GoogleSheetsHelper.register_user, hfind]
  · intro sheets sess mode now r h
    simp only [process_withdrawal_request] at h
    repeat' split at h
    all_goals try exact Option.noConfusion h
    all_goals (injection h with h; subst h; exact ⟨rfl, rfl⟩)
  · intro sheets sess t
    rcases hup : GoogleSheetsHelper.update_user_profile sheets (get_username sess)
      (pyShow sess.update_field) t with ⟨s2, ok, msg⟩
    constructor <;> (simp [handle_profile_update, hup]; cases ok <;> simp)

/-- Witness for the amended C4 on concrete terminal transitions of all
three dialogues. -/
theorem C4_amended_state_reset_scratch_persists_witness :
    ((handle_registration ⟨[], []⟩ regConfirmSession
        "awaiting_confirmation" "no").2.1.registration_state = none ∧
      (handle_registration ⟨[], []⟩ regConfirmSession
        "awaiting_confirmation" "no").2.1.registration_data
        = regConfirmSession.registration_data) ∧
    ((handle_registration ⟨[], []⟩ regConfirmSession
        "awaiting_confirmation" "Yes").2.1.registration_state = none ∧
      (handle_registration ⟨[], []⟩ regConfirmSession
        "awaiting_confirmation" "Yes").2.1.registration_data
        = regConfirmSession.registration_data) ∧
    (∀ r, process_withdrawal_request aliceSheets aliceWdSession (some "UPI") "ts" = some r →
      r.2.1.withdraw_state = none ∧ r.2.1.withdraw_data = aliceWdSession.withdraw_data) ∧
    ((handle_profile_update aliceSheets aliceSession
        "updating_field" "x").2.1.update_profile_state = none ∧
      (handle_profile_update aliceSheets aliceSession
        "updating_field" "x").2.1.update_field = aliceSession.update_field) := by
  refine ⟨?_, ?_, ?_, ?_⟩
  · exact C4_amended_state_reset_scratch_persists.1 ⟨[], []⟩ regConfirmSession "no"
      (by decide)
  · exact C4_amended_state_reset_scratch_persists.2.1 ⟨[], []⟩ regConfirmSession "Yes"
      (by decide) (by decide)
  · exact fun r =>
      C4_amended_state_reset_scratch_persists.2.2.1 aliceSheets aliceWdSession
        (some "UPI") "ts" r
  · exact C4_amended_state_reset_scratch_persists.2.2.2 aliceSheets aliceSession "x"

/-- The session of the C2 scenario: alice mid-profile-update, having
selected the "Payment Mode" field. -/
def aliceProfileSession : Session :=
  { aliceSession with
      update_profile_state := some "updating_payment_mode"
      update_field := some "payment_mode" }

/-- Claim C2 (code bug): the profile-update flow maps the "Payment Mode"
menu label to the field key `payment_mode`, but `update_user_profile`
only accepts `preferred_payment_mode`, so completing the payment-mode
branch with input "UPI" always fails: no column is written (the sheets
come back unchanged) and the reply is the failure message, where the
claim (and the spec) promise Success and a write to the Preferred
Payment Mode column. -/
theorem C2_payment_mode_update_always_fails :
    field_mapping "Payment Mode" = some "payment_mode" ∧
    (handle_profile_update aliceSheets
        { aliceSession with update_profile_state := some "selecting_field" }
        "selecting_field" "Payment Mode").2.1.update_field = some "payment_mode" ∧
    GoogleSheetsHelper.profile_field_map "payment_mode" = none ∧
    handle_profile_update aliceSheets aliceProfileSession
        "updating_payment_mode" "UPI" =
      (aliceSheets, { aliceProfileSession with update_profile_state := none },
        ["Failed to update profile: Invalid field: payment_mode"]) := by
  decide

/-- Claim C9 counterexample: on an id with no session, `login_user` with
an existing username and `register_user` are not no-ops — they die with
the modelled `KeyError` (the source indexes `active_users[user_id]`
without a guard), refuting "every session-store operation ... never
fails with an error". -/
theorem C9_counterexample_keyerror :
    UserManager.login_user_store aliceSheets [] 7 "alice" = Except.error "KeyError" ∧
    UserManager.register_user_store ⟨[], []⟩ [] 7 = Except.error "KeyError" :=
  ⟨rfl, rfl⟩

/-- Claim C9 as amended: the guarded accessors of the session store
(is_logged_in, get_username, the six state/data getters, the six
setters, and end_session) are no-ops or return empty defaults on an
unknown id; only `login_user` (when the username exists) and
`register_user` fail there. -/
theorem C9_amended_accessors_safe (st : Store) (id : Nat)
    (h : UserManager.store_find st id = none) :
    UserManager.is_logged_in st id = false ∧
    UserManager.get_username_store st id = none ∧
    UserManager.get_registration_state st id = none ∧
    UserManager.get_registration_data st id = emptyRegData ∧
    UserManager.get_withdraw_state st id = none ∧
    UserManager.get_withdraw_data st id = emptyWithdrawData ∧
    UserManager.get_update_profile_state st id = none ∧
    UserManager.get_update_field st id = none ∧
    (∀ v, UserManager.set_registration_state st id v = st) ∧
    (∀ g, UserManager.set_registration_data st id g = st) ∧
    (∀ v, UserManager.set_withdraw_state st id v = st) ∧
    (∀ g, UserManager.set_withdraw_data st id g = st) ∧
    (∀ v, UserManager.set_update_profile_state st id v = st) ∧
    (∀ v, UserManager.set_update_field st id v = st) ∧
    UserManager.end_session st id = st := by
  simp [UserManager.is_logged_in, UserManager.get_username_store,
    UserManager.get_registration_state, UserManager.get_registration_data,
    UserManager.get_withdraw_state, UserManager.get_withdraw_data,
    UserManager.get_update_profile_state, UserManager.get_update_field,
    UserManager.set_registration_state, UserManager.set_registration_data,
    UserManager.set_withdraw_state, UserManager.set_withdraw_data,
    UserManager.set_update_profile_state, UserManager.set_update_field,
    UserManager.end_session, h]

/-- Witness for the amended C9 on the empty store. -/
theorem C9_amended_accessors_safe_witness :
    UserManager.is_logged_in [] 7 = false ∧
    UserManager.get_username_store [] 7 = none ∧
    UserManager.set_registration_state [] 7 (some "awaiting_username") = [] ∧
    UserManager.end_session [] 7 = [] := by
  have h := C9_amended_accessors_safe [] 7 rfl
  exact ⟨h.1, h.2.1, h.2.2.2.2.2.2.2.2.1 (some "awaiting_username"),
    h.2.2.2.2.2.2.2.2.2.2.2.2.2.2⟩
